import Mathlib

/-!
Verification of the Dhan broker driver (`src/brokers/integrations/dhan/driver.py`)
against its natural-language specification.

The driver is shallowly embedded: every public operation becomes a Lean
function from an explicit driver state and an environment oracle (describing
the outcome of each network / library call) to a result record that carries

  * `val`   : the value returned to the caller, or the Python exception that
              propagates out of the operation (`Except String _`);
  * `calls` : the list of network calls issued, in order;
  * `logs`  : the `print` messages emitted (the code logs by printing);
  * `st`    : the driver state after the call (object attributes mutated).

Machine floats (`price`, balances, ...) are modelled as `ℚ`: the driver only
compares them with `0`, assigns `0.0`, and passes them through, so no
float-specific rounding is observable.  Python `int` is modelled as `Int`,
and a call that may raise becomes a `CallResult` supplied by the oracle.
-/

namespace Dhan

/-- Python `str(x)` on an `Optional[str]`: `None` prints as `"None"`. -/
def strOpt : Option String → String
  | none => "None"
  | some s => s

/-- Substring test on character lists (used to model Python `in` on strings
and `pandas.Series.str.contains` with a meta-character-free needle). -/
def listHasSub (needle hay : List Char) : Bool :=
  (List.range (hay.length + 1)).any fun i => needle.isPrefixOf (hay.drop i)

/-- Python `needle in hay` on strings (case sensitive). -/
def strHasSub (hay needle : String) : Bool :=
  listHasSub needle.toList hay.toList

/-- ASCII lower-casing (Python `str.lower()`; every string the driver
lower-cases is ASCII). -/
def strLower (s : String) : String :=
  ⟨s.data.map Char.toLower⟩

/-- `Series.str.contains(needle, case=False)`: case-insensitive substring.
The needles used by the driver (`"NSE"`, `"BSE"`, `"MCX"`) carry no regex
meta-characters, so pandas regex containment coincides with substring. -/
def strHasSubCI (hay needle : String) : Bool :=
  strHasSub (strLower hay) (strLower needle)

/-- Split a character list at the first occurrence of `sep`: the part
before it, and — when `sep` occurs — the part after it. -/
def breakAtChar (sep : Char) : List Char → List Char × Option (List Char)
  | [] => ([], none)
  | c :: rest =>
    if c = sep then ([], some rest)
    else
      let p := breakAtChar sep rest
      (c :: p.1, p.2)

/-- Python `s.split(":", 1)` as the pair (before first colon, after it);
only applied by the driver after checking `":" in s`. -/
def splitFirstColon (s : String) : String × String :=
  let p := breakAtChar ':' s.data
  (⟨p.1⟩, ⟨p.2.getD []⟩)

/-- Python `s.split(" ")[0]` (never raises: splitting "" yields [""]). -/
def firstWord (s : String) : String :=
  ⟨(breakAtChar ' ' s.data).1⟩

/-! ### Domain enums (`brokers.core.enums`)

Modelled from the spec: `core/enums.py` is not in the sources;  the spec and
the driver use `Exchange.{NSE, BSE, MCX, NFO}`, `OrderType.LIMIT` (plus
market-class types), `ProductType.{INTRADAY, CNC, MARGIN}`,
`TransactionType.{BUY, SELL}`, `Validity.{DAY, IOC}`. -/

inductive Exchange
  | NSE | BSE | MCX | NFO
deriving DecidableEq, Repr

/-- Python `exchange.name` on the enum member. -/
def Exchange.nameStr : Exchange → String
  | .NSE => "NSE"
  | .BSE => "BSE"
  | .MCX => "MCX"
  | .NFO => "NFO"

/-- `Exchange[s] if s in Exchange.__members__` — membership-guarded lookup. -/
def Exchange.ofMember : String → Option Exchange
  | "NSE" => some .NSE
  | "BSE" => some .BSE
  | "MCX" => some .MCX
  | "NFO" => some .NFO
  | _ => none

inductive OrderType
  | LIMIT | MARKET | SL | SLM
deriving DecidableEq, Repr

/-- Rendering used for `str(KeyError(...))`-style messages. -/
def OrderType.nameStr : OrderType → String
  | .LIMIT => "OrderType.LIMIT"
  | .MARKET => "OrderType.MARKET"
  | .SL => "OrderType.SL"
  | .SLM => "OrderType.SLM"

inductive ProductType
  | INTRADAY | CNC | MARGIN
deriving DecidableEq, Repr

def ProductType.nameStr : ProductType → String
  | .INTRADAY => "ProductType.INTRADAY"
  | .CNC => "ProductType.CNC"
  | .MARGIN => "ProductType.MARGIN"

inductive TransactionType
  | BUY | SELL
deriving DecidableEq, Repr

def TransactionType.nameStr : TransactionType → String
  | .BUY => "TransactionType.BUY"
  | .SELL => "TransactionType.SELL"

inductive Validity
  | DAY | IOC
deriving DecidableEq, Repr

def Validity.nameStr : Validity → String
  | .DAY => "Validity.DAY"
  | .IOC => "Validity.IOC"

/-! ### Instrument master table

One row of `master_contract_df` after the `df.rename` in
`download_instruments` (the rename only relabels the CSV columns
`SEM_SMST_SECURITY_ID → token`, `SEM_TRADING_SYMBOL → symbol`,
`SEM_EXM_EXCH_ID → exchange_id`; the oracle therefore supplies the table
directly in the renamed view).  Only the three columns the driver reads are
modelled. -/
structure InstRow where
  symbol : String
  exchange_id : String
  token : String
deriving DecidableEq, Repr

/-- `master_contract_df` as a list of rows (pandas row order preserved;
`iloc[0]` = head of the filtered list). -/
abbrev Table := List InstRow

/-! ### Request / response records (`brokers.core.schemas`)

Modelled from the spec: `core/schemas.py` is not in the sources.  The spec
gives `OrderRequest = {symbol, exchange, transaction_type, order_type,
product_type, validity, quantity, price, stop_price}` and `OrderResponse =
{status, order_id?, message?, raw}`; constructor arguments the driver omits
(`message`, `raw`) default to `none`. -/

structure OrderRequest where
  symbol : String
  exchange : Exchange
  transaction_type : TransactionType
  order_type : OrderType
  product_type : ProductType
  validity : Validity
  quantity : Int
  price : ℚ
  stop_price : ℚ
deriving DecidableEq, Repr

/-- The dict returned by the `dhanhq` order endpoints, reduced to the fields
the driver reads: `resp.get("status")` and `resp.get("data", {}).get("orderId")`
(a missing `status` key is folded into a non-`"success"` string). -/
structure DhanResp where
  status : String
  orderId : Option String
deriving DecidableEq, Repr

/-- Model of Python `str(resp)` — an opaque rendering of the dict; its exact
text is immaterial to every claim, only that it is derived from `resp`. -/
def DhanResp.render (r : DhanResp) : String :=
  "status=" ++ r.status ++ " orderId=" ++ strOpt r.orderId

structure OrderResponse where
  status : String
  order_id : Option String
  message : Option String
  raw : Option DhanResp
deriving DecidableEq, Repr

/-- Payload of `get_fund_limits`: the two keys `get_funds` reads, already
converted to numbers (`float(...)` of a non-numeric value would raise, which
the surrounding `except` also swallows; the oracle supplies numeric values,
the `.get(..., 0.0)` defaults folded in). -/
structure FundsData where
  availabelBalance : ℚ
  utilizedAmount : ℚ
deriving DecidableEq, Repr

structure FundsResp where
  status : String
  data : FundsData
deriving DecidableEq, Repr

/-- The `raw` slot of `Funds`: error dict, the `data` dict, or the whole resp. -/
inductive FundsRaw
  | errDict (msg : String)
  | dataRaw (d : FundsData)
  | respRaw (r : FundsResp)
deriving DecidableEq, Repr

structure Funds where
  equity : ℚ
  available_cash : ℚ
  used_margin : ℚ
  net : ℚ
  raw : FundsRaw
deriving DecidableEq, Repr

/-- One position dict from `get_positions`, reduced to the keys the driver
reads, `.get` defaults folded in and numeric conversions presupposed. -/
structure PosRow where
  exchangeSegment : String
  productType : String
  tradingSymbol : String
  netQty : Int
  avgCostPrice : ℚ
  realizedProfit : ℚ
  unrealizedProfit : ℚ
deriving DecidableEq, Repr

structure PositionsResp where
  status : String
  data : List PosRow
deriving DecidableEq, Repr

structure Position where
  symbol : String
  exchange : Exchange
  quantity_total : Int
  quantity_available : Int
  average_price : ℚ
  pnl : ℚ
  product_type : ProductType
  raw : PosRow
deriving DecidableEq, Repr

/-- `get_order_list` / `get_trade_book` responses: the rows are passed
through uninspected, modelled as opaque rendered dicts. -/
structure ListResp where
  status : String
  data : List String
deriving DecidableEq, Repr

/-- `get_quote` payload: the driver reads only `data.get("last_price", 0.0)`. -/
structure QuoteData where
  last_price : ℚ
deriving DecidableEq, Repr

structure QuoteResp where
  status : String
  data : QuoteData
deriving DecidableEq, Repr

inductive QuoteRaw
  | errDict (msg : String)
  | dataRaw (d : QuoteData)
  | respRaw (r : QuoteResp)
deriving DecidableEq, Repr

structure Quote where
  symbol : String
  exchange : Exchange
  last_price : ℚ
  raw : QuoteRaw
deriving DecidableEq, Repr

/-- One candle dict from `intraday_minute_data`, keys the driver reads
(`get` defaults folded; `start_Time` may be absent → `none`). -/
structure Candle where
  start_Time : Option Int
  openP : ℚ
  high : ℚ
  low : ℚ
  close : ℚ
  volume : ℚ
deriving DecidableEq, Repr

structure HistResp where
  status : String
  data : List Candle
deriving DecidableEq, Repr

/-- One row of `get_history`'s output list. -/
structure HistRow where
  ts : Option Int
  openP : ℚ
  high : ℚ
  low : ℚ
  close : ℚ
  volume : ℚ
  oi : Int
deriving DecidableEq, Repr

/-- Keyword arguments of the outbound `dhanhq.place_order` call. -/
structure PlaceArgs where
  security_id : String
  exchange_segment : String
  transaction_type : String
  quantity : Int
  order_type : String
  product_type : String
  price : ℚ
  trigger_price : ℚ
  validity : String
deriving DecidableEq, Repr

/-- Keyword arguments of `intraday_minute_data`. -/
structure HistoryArgs where
  security_id : String
  exchange_segment : String
  instrument_type : String
  from_date : String
  to_date : String
deriving DecidableEq, Repr

/-- The `updates` dict accepted by `modify_order`: `updates.get(k)` yields
`none` when the key is absent. -/
structure Updates where
  quantity : Option Int
  price : Option ℚ
  trigger_price : Option ℚ
  order_type : Option OrderType
  validity : Option Validity
deriving DecidableEq, Repr

/-- A loosely-typed Python value forwarded to `dhanhq.modify_order`:
`None`, a number, a translated wire string, or — because the code uses
`M.order_type["dhan"].get(order_type, order_type)` — the untranslated enum
itself. -/
inductive ModVal
  | pyNone
  | int (i : Int)
  | rat (q : ℚ)
  | wire (s : String)
  | otype (o : OrderType)
  | vdty (v : Validity)
deriving DecidableEq, Repr

structure ModifyArgs where
  order_id : String
  order_type : ModVal
  quantity : ModVal
  price : ModVal
  trigger_price : ModVal
  validity : ModVal
deriving DecidableEq, Repr

/-- The `"dhan"` column of the mapping registry (`brokers.mappings`).
Modelled from the spec: `mappings.py` is not in the sources; the spec says a
missing `(kind, broker, value)` triple fails with `MappingNotFound` — in the
driver, `M.kind["dhan"][v]` raising `KeyError`.  The tables are therefore
kept abstract as partial maps. -/
structure MappingRegistry where
  order_type : OrderType → Option String
  product_type : ProductType → Option String
  transaction_type : TransactionType → Option String
  validity : Validity → Option String

/-- Mutable driver attributes the claims observe: `_dhan` (a broker client
is present, i.e. credentials were found at construction), the
`master_contract_df` attribute (absent → `none`), and `_feed`. -/
structure DriverState where
  dhan : Bool
  master : Option Table
  feed : Bool
deriving DecidableEq, Repr

/-- Outcome of one Python call: a value, or a raised exception (message). -/
inductive CallResult (α : Type)
  | ok (v : α)
  | exn (e : String)
deriving DecidableEq, Repr

/-- Outcome of `self._feed.subscribe_symbols(...)`: the surrounding
`except AttributeError` distinguishes `AttributeError` from other raises. -/
inductive SubOutcome
  | ok
  | attrError
  | exn (e : String)
deriving DecidableEq, Repr

/-- Environment oracle: the behaviour of every external call the driver can
make (network transport, instrument CSV fetch, cache file, feed). -/
structure Env where
  /-- `pd.read_csv(url)` of the scrip master, in the post-rename view. -/
  fetchMaster : CallResult Table
  /-- cache write (`os.makedirs` + `df.to_csv`). -/
  cacheWrite : CallResult Unit
  /-- `pd.read_csv(cache_file)`: `none` when the file does not exist. -/
  cacheFile : Option (CallResult Table)
  place : PlaceArgs → CallResult DhanResp
  cancel : String → CallResult DhanResp
  modify : ModifyArgs → CallResult DhanResp
  fundLimits : CallResult FundsResp
  positions : CallResult PositionsResp
  orderList : CallResult ListResp
  tradeBook : CallResult ListResp
  quote : String → String → String → CallResult QuoteResp
  history : HistoryArgs → CallResult HistResp
  /-- environment credentials re-read by `connect_websocket`. -/
  creds : Bool
  /-- `DhanFeed` import + construction + thread start. -/
  feedInit : CallResult Unit
  subscribeSymbols : List (String × String) → SubOutcome
  subscribeFallback : List (String × String) → CallResult Unit

/-- A network call issued by the driver, with its arguments. -/
inductive NetCall
  | fetchMaster
  | placeOrder (a : PlaceArgs)
  | cancelOrder (order_id : String)
  | modifyOrder (a : ModifyArgs)
  | fundLimits
  | positions
  | orderList
  | tradeBook
  | quote (security_id exchange_segment instrument_type : String)
  | intraday (a : HistoryArgs)
  | subscribeSymbols (l : List (String × String))
  | subscribeFallback (l : List (String × String))
deriving DecidableEq, Repr

deriving instance DecidableEq for Except

/-- Result of running one driver operation: returned value or propagated
exception, network calls issued, log lines printed, state after the call. -/
structure OpOut (α : Type) where
  val : Except String α
  calls : List NetCall
  logs : List String
  st : DriverState
deriving DecidableEq, Repr

/-! ### Operations (each `def` embeds the like-named driver method) -/

/-- `str(KeyError(k))`-style message produced when an enum is missing from a
mapping table (exact text immaterial to every claim). -/
def keyErr (k : String) : String :=
  "KeyError: " ++ k

/-- The pure core of `_lookup_token` once a table is in memory
(`driver.py:182-203`): guard `df.empty`, filter on exact `symbol` equality
and case-insensitive containment of `exchange.name` in `exchange_id`, then
`str(row.iloc[0]['token'])` of the first match. -/
def lookupIn (df : Table) (symbol : String) (exchange : Exchange) : Option String :=
  if df.isEmpty then none
  else
    match df.filter (fun r => r.symbol == symbol && strHasSubCI r.exchange_id exchange.nameStr) with
    | [] => none
    | r :: _ => some r.token

/-- `download_instruments` (`driver.py:130-165`): fetch + rename, assign
`self.master_contract_df`, then write the cache file; every raise is caught
and printed, so the method itself never propagates and the in-memory table
is only assigned after a successful fetch. -/
def download_instruments (st : DriverState) (env : Env) : OpOut Unit :=
  match env.fetchMaster with
  | .exn e =>
    ⟨.ok (), [.fetchMaster], ["Error downloading Dhan instruments: " ++ e], st⟩
  | .ok df =>
    let st1 := { st with master := some df }
    match env.cacheWrite with
    | .ok _ => ⟨.ok (), [.fetchMaster], [], st1⟩
    | .exn e =>
      ⟨.ok (), [.fetchMaster], ["Error downloading Dhan instruments: " ++ e], st1⟩

/-- `get_instruments` (`driver.py:167-175`): return the in-memory table, else
load the cache file if present (NOT wrapped in try/except — a parse failure
propagates), else return `[]` (modelled as `none`). -/
def get_instruments (st : DriverState) (env : Env) : OpOut (Option Table) :=
  match st.master with
  | some df => ⟨.ok (some df), [], [], st⟩
  | none =>
    match env.cacheFile with
    | some (.ok df) => ⟨.ok (some df), [], [], { st with master := some df }⟩
    | some (.exn e) => ⟨.error e, [], [], st⟩
    | none => ⟨.ok none, [], [], st⟩

/-- `_lookup_token` (`driver.py:177-203`): implicit `download_instruments()`
when the attribute is absent; if the download failed the subsequent
`self.master_contract_df` read raises `AttributeError`. -/
def lookup_token (symbol : String) (exchange : Exchange) (st : DriverState)
    (env : Env) : OpOut (Option String) :=
  match st.master with
  | some df => ⟨.ok (lookupIn df symbol exchange), [], [], st⟩
  | none =>
    let d := download_instruments st env
    match d.st.master with
    | none => ⟨.error "AttributeError: DhanDriver object has no attribute master_contract_df",
               d.calls, d.logs, d.st⟩
    | some df => ⟨.ok (lookupIn df symbol exchange), d.calls, d.logs, d.st⟩

/-- `_get_exchange_segment` (`driver.py:205-227`).  Note the Python operator
precedence on line 210 (`a or b or c and d`), and that the index branch
returns `"IDX_I"` — the later `return "NSE_INDEX"` on line 217 is dead code. -/
def get_exchange_segment (exchange : Exchange) (symbol : String) : String :=
  if exchange = .NSE then
    if symbol == "NIFTY 50" || symbol == "NIFTY BANK"
        || (strHasSub symbol "NIFTY" && strHasSub symbol " ") then
      "IDX_I"
    else if symbol.toList.any Char.isDigit || strHasSub symbol "NIFTY"
        || strHasSub symbol "BANKNIFTY" then
      "NSE_FNO"
    else
      "NSE_EQ"
  else if exchange = .BSE then "BSE_EQ"
  else if exchange = .MCX then "MCX_COMM"
  else "NSE_EQ"

/-- The keyword arguments of the outbound `dhanhq.place_order` call
(`driver.py:249-260`), given the four translated wire strings and the
resolved security id: the request is first price-normalized in place
(`driver.py:246-247`), and a non-`LIMIT` order sends price `0`. -/
def mkPlaceArgs (req : OrderRequest) (ot pt tt vd sid : String) : PlaceArgs :=
  let req' := if req.price ≤ 0 then { req with price := 0 } else req
  { security_id := sid
    exchange_segment := get_exchange_segment req.exchange req.symbol
    transaction_type := tt
    quantity := req'.quantity
    order_type := ot
    product_type := pt
    price := if req'.order_type = OrderType.LIMIT then req'.price else 0
    trigger_price := req'.stop_price
    validity := vd }

/-- `place_order` (`driver.py:230-269`).  Returns the response and the
request object as the caller sees it afterwards (line 246-247 mutates
`request.price` in place).  The `except Exception` wraps everything after
the `_dhan` guard, so enum `KeyError`s and `_lookup_token`'s
`AttributeError` come back as error responses, never as raises.  Note that
`if not security_id` also treats an empty-string token as absent. -/
def place_order (M : MappingRegistry) (st : DriverState) (env : Env)
    (req : OrderRequest) : OpOut (OrderResponse × OrderRequest) :=
  if !st.dhan then
    ⟨.ok (⟨"error", none, some "unauthenticated", none⟩, req), [], [], st⟩
  else
    match M.order_type req.order_type with
    | none =>
      ⟨.ok (⟨"error", none, some (keyErr req.order_type.nameStr), none⟩, req), [], [], st⟩
    | some dhan_order_type =>
    match M.product_type req.product_type with
    | none =>
      ⟨.ok (⟨"error", none, some (keyErr req.product_type.nameStr), none⟩, req), [], [], st⟩
    | some dhan_product_type =>
    match M.transaction_type req.transaction_type with
    | none =>
      ⟨.ok (⟨"error", none, some (keyErr req.transaction_type.nameStr), none⟩, req), [], [], st⟩
    | some dhan_txn_type =>
    match M.validity req.validity with
    | none =>
      ⟨.ok (⟨"error", none, some (keyErr req.validity.nameStr), none⟩, req), [], [], st⟩
    | some dhan_validity =>
    let lk := lookup_token req.symbol req.exchange st env
    match lk.val with
    | .error e =>
      ⟨.ok (⟨"error", none, some e, none⟩, req), lk.calls, lk.logs, lk.st⟩
    | .ok security_id? =>
    match security_id? with
    | none =>
      ⟨.ok (⟨"error", none, some ("Symbol not found in master: " ++ req.symbol), none⟩, req),
       lk.calls, lk.logs, lk.st⟩
    | some security_id =>
    if security_id == "" then
      ⟨.ok (⟨"error", none, some ("Symbol not found in master: " ++ req.symbol), none⟩, req),
       lk.calls, lk.logs, lk.st⟩
    else
      let req' := if req.price ≤ 0 then { req with price := 0 } else req
      let args : PlaceArgs :=
        mkPlaceArgs req dhan_order_type dhan_product_type dhan_txn_type dhan_validity security_id
      match env.place args with
      | .exn e =>
        ⟨.ok (⟨"error", none, some e, none⟩, req'),
         lk.calls ++ [.placeOrder args], lk.logs, lk.st⟩
      | .ok r =>
        if r.status == "success" then
          ⟨.ok (⟨"ok", some (strOpt r.orderId), none, some r⟩, req'),
           lk.calls ++ [.placeOrder args], lk.logs, lk.st⟩
        else
          ⟨.ok (⟨"error", none, some r.render, some r⟩, req'),
           lk.calls ++ [.placeOrder args], lk.logs, lk.st⟩

/-- `cancel_order` (`driver.py:271-280`). -/
def cancel_order (st : DriverState) (env : Env) (order_id : String) :
    OpOut OrderResponse :=
  if !st.dhan then
    ⟨.ok ⟨"error", some order_id, some "unauthenticated", none⟩, [], [], st⟩
  else
    match env.cancel order_id with
    | .exn e =>
      ⟨.ok ⟨"error", some order_id, some e, none⟩, [.cancelOrder order_id], [], st⟩
    | .ok r =>
      if r.status == "success" then
        ⟨.ok ⟨"ok", some order_id, none, some r⟩, [.cancelOrder order_id], [], st⟩
      else
        ⟨.ok ⟨"error", some order_id, some r.render, some r⟩, [.cancelOrder order_id], [], st⟩

/-- The argument extraction of `modify_order` (`driver.py:294-313`): fields
absent from `updates` are forwarded as `None`; enum fields present are
translated with `.get(v, v)` — an untranslatable enum is passed through to
the wire unchanged rather than raising. -/
def modifyArgsOf (M : MappingRegistry) (order_id : String) (updates : Updates) :
    ModifyArgs :=
  let qty : ModVal := match updates.quantity with
    | none => .pyNone
    | some i => .int i
  let price : ModVal := match updates.price with
    | none => .pyNone
    | some q => .rat q
  let trigger : ModVal := match updates.trigger_price with
    | none => .pyNone
    | some q => .rat q
  let ot : ModVal := match updates.order_type with
    | none => .pyNone
    | some o =>
      match M.order_type o with
      | some w => .wire w
      | none => .otype o
  let vd : ModVal := match updates.validity with
    | none => .pyNone
    | some v =>
      match M.validity v with
      | some w => .wire w
      | none => .vdty v
  { order_id := order_id, order_type := ot, quantity := qty
    price := price, trigger_price := trigger, validity := vd }

/-- `modify_order` (`driver.py:282-320`). -/
def modify_order (M : MappingRegistry) (st : DriverState) (env : Env)
    (order_id : String) (updates : Updates) : OpOut OrderResponse :=
  if !st.dhan then
    ⟨.ok ⟨"error", some order_id, some "unauthenticated", none⟩, [], [], st⟩
  else
    let args : ModifyArgs := modifyArgsOf M order_id updates
    match env.modify args with
    | .exn e =>
      ⟨.ok ⟨"error", some order_id, some e, none⟩, [.modifyOrder args], [], st⟩
    | .ok r =>
      if r.status == "success" then
        ⟨.ok ⟨"ok", some order_id, none, some r⟩, [.modifyOrder args], [], st⟩
      else
        ⟨.ok ⟨"error", some order_id, some r.render, some r⟩, [.modifyOrder args], [], st⟩

/-- `get_funds` (`driver.py:64-86`). -/
def get_funds (st : DriverState) (env : Env) : OpOut Funds :=
  if !st.dhan then
    ⟨.ok ⟨0, 0, 0, 0, .errDict "unauthenticated"⟩, [], [], st⟩
  else
    match env.fundLimits with
    | .exn e => ⟨.ok ⟨0, 0, 0, 0, .errDict e⟩, [.fundLimits], [], st⟩
    | .ok r =>
      if r.status == "success" then
        let a := r.data.availabelBalance
        let u := r.data.utilizedAmount
        ⟨.ok ⟨a + u, a, u, a, .dataRaw r.data⟩, [.fundLimits], [], st⟩
      else
        ⟨.ok ⟨0, 0, 0, 0, .respRaw r⟩, [.fundLimits], [], st⟩

/-- The field mapping applied to one position dict (`driver.py:98-124`). -/
def mapPosition (p : PosRow) : Position :=
  let exchange : Exchange :=
    if strHasSub p.exchangeSegment "NSE" then .NSE
    else if strHasSub p.exchangeSegment "BSE" then .BSE
    else if strHasSub p.exchangeSegment "MCX" then .MCX
    else .NSE
  let prod : ProductType :=
    if p.productType == "CNC" then .CNC
    else if p.productType == "MARGIN" then .MARGIN
    else .INTRADAY
  { symbol := p.tradingSymbol
    exchange := exchange
    quantity_total := p.netQty
    quantity_available := p.netQty
    average_price := p.avgCostPrice
    pnl := p.realizedProfit + p.unrealizedProfit
    product_type := prod
    raw := p }

/-- `get_positions` (`driver.py:88-127`). -/
def get_positions (st : DriverState) (env : Env) : OpOut (List Position) :=
  if !st.dhan then
    ⟨.ok [], [], [], st⟩
  else
    match env.positions with
    | .exn _ => ⟨.ok [], [.positions], [], st⟩
    | .ok r =>
      if r.status != "success" then ⟨.ok [], [.positions], [], st⟩
      else ⟨.ok (r.data.map mapPosition), [.positions], [], st⟩

/-- `get_orderbook` (`driver.py:322-331`). -/
def get_orderbook (st : DriverState) (env : Env) : OpOut (List String) :=
  if !st.dhan then
    ⟨.ok [], [], [], st⟩
  else
    match env.orderList with
    | .exn _ => ⟨.ok [], [.orderList], [], st⟩
    | .ok r =>
      if r.status == "success" then ⟨.ok r.data, [.orderList], [], st⟩
      else ⟨.ok [], [.orderList], [], st⟩

/-- `get_tradebook` (`driver.py:333-342`). -/
def get_tradebook (st : DriverState) (env : Env) : OpOut (List String) :=
  if !st.dhan then
    ⟨.ok [], [], [], st⟩
  else
    match env.tradeBook with
    | .exn _ => ⟨.ok [], [.tradeBook], [], st⟩
    | .ok r =>
      if r.status == "success" then ⟨.ok r.data, [.tradeBook], [], st⟩
      else ⟨.ok [], [.tradeBook], [], st⟩

/-- `place_gtt_oco_order` (`driver.py:344-399`): resolves the symbol, then
always reports the not-implemented error; the surrounding try isolates
`_lookup_token` raises. -/
def place_gtt_oco_order (st : DriverState) (env : Env) (symbol : String)
    (exchange : String) : OpOut OrderResponse :=
  if !st.dhan then
    ⟨.ok ⟨"error", none, some "unauthenticated", none⟩, [], [], st⟩
  else
    let pr :=
      if !(strHasSub symbol ":") then (exchange, symbol)
      else splitFirstColon symbol
    let sym := pr.2
    let exch := (Exchange.ofMember pr.1).getD .NFO
    let lk := lookup_token sym exch st env
    match lk.val with
    | .error e =>
      ⟨.ok ⟨"error", none, some e, none⟩, lk.calls, lk.logs, lk.st⟩
    | .ok sid? =>
      match sid? with
      | none =>
        ⟨.ok ⟨"error", none, some ("Symbol not found: " ++ sym), none⟩,
         lk.calls, lk.logs, lk.st⟩
      | some sid =>
        if sid == "" then
          ⟨.ok ⟨"error", none, some ("Symbol not found: " ++ sym), none⟩,
           lk.calls, lk.logs, lk.st⟩
        else
          ⟨.ok ⟨"error", none,
            some "GTT OCO implementation requires Dhan Forever Order API verification.", none⟩,
           lk.calls, lk.logs, lk.st⟩

/-- The `"NSE:SYM"`-style prefix parsing shared by `get_quote` and
`get_history` (`driver.py:407-413`): unrecognised prefixes leave the
default `Exchange.NSE`. -/
def parseQuoteSymbol (symbol : String) : Exchange × String :=
  if strHasSub symbol ":" then
    let (e, ts) := splitFirstColon symbol
    (if e == "NSE" then .NSE
     else if e == "BSE" then .BSE
     else if e == "MCX" then .MCX
     else Exchange.NSE, ts)
  else (Exchange.NSE, symbol)

/-- `get_quote` (`driver.py:402-439`).  `inst_type` is derived from the
segment by two independent substring checks (so the index segment `"IDX_I"`
still classifies as `"EQUITY"`). -/
def get_quote (st : DriverState) (env : Env) (symbol : String) : OpOut Quote :=
  if !st.dhan then
    ⟨.ok ⟨symbol, .NSE, 0, .errDict "unauthenticated"⟩, [], [], st⟩
  else
    let exch := (parseQuoteSymbol symbol).1
    let tradingsymbol := (parseQuoteSymbol symbol).2
    let lk := lookup_token tradingsymbol exch st env
    match lk.val with
    | .error e =>
      ⟨.ok ⟨symbol, exch, 0, .errDict e⟩, lk.calls, lk.logs, lk.st⟩
    | .ok sid? =>
    match sid? with
    | none =>
      ⟨.ok ⟨symbol, exch, 0, .errDict "Symbol not found"⟩, lk.calls, lk.logs, lk.st⟩
    | some sid =>
    if sid == "" then
      ⟨.ok ⟨symbol, exch, 0, .errDict "Symbol not found"⟩, lk.calls, lk.logs, lk.st⟩
    else
      let exch_seg := get_exchange_segment exch tradingsymbol
      let i1 := if strHasSub exch_seg "FNO" then "FNO" else "EQUITY"
      let inst_type := if strHasSub exch_seg "INDEX" then "INDEX" else i1
      match env.quote sid exch_seg inst_type with
      | .exn e =>
        ⟨.ok ⟨symbol, exch, 0, .errDict e⟩,
         lk.calls ++ [.quote sid exch_seg inst_type], lk.logs, lk.st⟩
      | .ok r =>
        if r.status == "success" then
          ⟨.ok ⟨tradingsymbol, exch, r.data.last_price, .dataRaw r.data⟩,
           lk.calls ++ [.quote sid exch_seg inst_type], lk.logs, lk.st⟩
        else
          ⟨.ok ⟨symbol, exch, 0, .respRaw r⟩,
           lk.calls ++ [.quote sid exch_seg inst_type], lk.logs, lk.st⟩

/-- `get_history` (`driver.py:441-519`). -/
def get_history (st : DriverState) (env : Env) (symbol : String)
    (start : String) (endD : String) : OpOut (List HistRow) :=
  if !st.dhan then
    ⟨.ok [], [], [], st⟩
  else
    let exch := (parseQuoteSymbol symbol).1
    let tradingsymbol := (parseQuoteSymbol symbol).2
    let lk := lookup_token tradingsymbol exch st env
    match lk.val with
    | .error e => ⟨.ok [], lk.calls, lk.logs ++ ["Error fetching Dhan history: " ++ e], lk.st⟩
    | .ok sid? =>
    match sid? with
    | none =>
      ⟨.ok [], lk.calls, lk.logs ++ ["Symbol not found for history: " ++ tradingsymbol], lk.st⟩
    | some sid =>
    if sid == "" then
      ⟨.ok [], lk.calls, lk.logs ++ ["Symbol not found for history: " ++ tradingsymbol], lk.st⟩
    else
      let exch_seg := get_exchange_segment exch tradingsymbol
      let args : HistoryArgs :=
        { security_id := sid, exchange_segment := exch_seg
          instrument_type := "EQUITY"
          from_date := firstWord start, to_date := firstWord endD }
      match env.history args with
      | .exn e =>
        ⟨.ok [], lk.calls ++ [.intraday args],
         lk.logs ++ ["Error fetching Dhan history: " ++ e], lk.st⟩
      | .ok r =>
        if r.status != "success" then
          ⟨.ok [], lk.calls ++ [.intraday args], lk.logs, lk.st⟩
        else
          ⟨.ok (r.data.map fun c =>
             ⟨c.start_Time, c.openP, c.high, c.low, c.close, c.volume, 0⟩),
           lk.calls ++ [.intraday args], lk.logs, lk.st⟩

/-- `connect_websocket` (`driver.py:522-552`): guard on `_dhan`, re-read
credentials, construct the feed (import/constructor raises are caught and
printed) and start the background thread; `_feed` is set on success. -/
def connect_websocket (st : DriverState) (env : Env) : OpOut Unit :=
  if !st.dhan then
    ⟨.ok (), [], [], st⟩
  else if !env.creds then
    ⟨.ok (), [], [], st⟩
  else
    match env.feedInit with
    | .ok _ => ⟨.ok (), [], [], { st with feed := true }⟩
    | .exn e => ⟨.ok (), [], ["Error connecting Dhan WS: " ++ e], st⟩

/-- The per-symbol resolution loop of `symbols_to_subscribe`
(`driver.py:558-580`), threading the driver state (the first resolution may
download the master table for the rest) and accumulating `sub_list`; an
uncaught raise from `_lookup_token` aborts the whole loop. -/
def subResolve (env : Env) : List String → DriverState → List NetCall →
    List String → List (String × String) → OpOut (List (String × String))
  | [], st, cs, ls, acc => ⟨.ok acc, cs, ls, st⟩
  | s :: rest, st, cs, ls, acc =>
    let pr := if strHasSub s ":" then splitFirstColon s else ("NSE", s)
    let sym := pr.2
    let exch := (Exchange.ofMember pr.1).getD .NSE
    let lk := lookup_token sym exch st env
    match lk.val with
    | .error e => ⟨.error e, cs ++ lk.calls, ls ++ lk.logs, lk.st⟩
    | .ok sid? =>
      let seg := get_exchange_segment exch sym
      let acc' := match sid? with
        | none => acc
        | some sid => if sid == "" then acc else acc ++ [(seg, sid)]
      subResolve env rest lk.st (cs ++ lk.calls) (ls ++ lk.logs) acc'

/-- `symbols_to_subscribe` (`driver.py:554-587`): no-op without a feed;
resolve every symbol (silently skipping the unresolvable ones — nothing is
logged for them); a non-empty `sub_list` is sent with
`subscribe_symbols`, falling back to `subscribe` only on `AttributeError` —
any other raise, and any raise of the fallback itself, propagates. -/
def symbols_to_subscribe (st : DriverState) (env : Env) (symbols : List String) :
    OpOut Unit :=
  if !st.feed then
    ⟨.ok (), [], [], st⟩
  else
    let r := subResolve env symbols st [] [] []
    match r.val with
    | .error e => ⟨.error e, r.calls, r.logs, r.st⟩
    | .ok sub_list =>
      if sub_list.isEmpty then ⟨.ok (), r.calls, r.logs, r.st⟩
      else
        match env.subscribeSymbols sub_list with
        | .ok => ⟨.ok (), r.calls ++ [.subscribeSymbols sub_list], r.logs, r.st⟩
        | .exn e => ⟨.error e, r.calls ++ [.subscribeSymbols sub_list], r.logs, r.st⟩
        | .attrError =>
          match env.subscribeFallback sub_list with
          | .ok _ =>
            ⟨.ok (), r.calls ++ [.subscribeSymbols sub_list, .subscribeFallback sub_list],
             r.logs, r.st⟩
          | .exn e =>
            ⟨.error e, r.calls ++ [.subscribeSymbols sub_list, .subscribeFallback sub_list],
             r.logs, r.st⟩

/-- `connect_order_websocket` (`driver.py:589-595`). -/
def connect_order_websocket (st : DriverState) (env : Env) : OpOut Unit :=
  if !st.feed then
    let c := connect_websocket st env
    ⟨.ok (), c.calls, c.logs, c.st⟩
  else
    ⟨.ok (), [], [], st⟩

/-! ### Observation helpers -/

/-- `true` iff the operation returned normally (no exception propagated). -/
def isOkE {α : Type} : Except String α → Bool
  | .ok _ => true
  | .error _ => false

/-- Select the outbound order-placement calls from a call trace. -/
def placeArgOf : NetCall → Option PlaceArgs
  | .placeOrder a => some a
  | _ => none

/-- The `raw` field of the returned `OrderResponse`, `none` at the outer
level when the operation raised instead of returning. -/
def rawOf (o : OpOut OrderResponse) : Option (Option DhanResp) :=
  match o.val with
  | .ok resp => some resp.raw
  | .error _ => none

/-- Same, for `place_order`'s (response, request) result pair. -/
def rawOfPlace (o : OpOut (OrderResponse × OrderRequest)) : Option (Option DhanResp) :=
  match o.val with
  | .ok (resp, _) => some resp.raw
  | .error _ => none

/-- The request object as the caller sees it after `place_order` returns. -/
def reqOf (o : OpOut (OrderResponse × OrderRequest)) : Option OrderRequest :=
  match o.val with
  | .ok (_, r) => some r
  | .error _ => none

/-! ### Specification-side definitions (for refinement comparisons) -/

/-- Resolution as claim C6 words it: case-INSENSITIVE, exchange-filtered
exact match on the trading symbol. -/
def resolve_claimC6 (df : Table) (symbol : String) (exchange : Exchange) :
    Option String :=
  (df.find? fun r =>
    strLower r.symbol == strLower symbol && strHasSubCI r.exchange_id exchange.nameStr).map
    (fun r => r.token)

/-- Resolution as the code actually matches (amended claim): case-SENSITIVE
exact match on the symbol, case-insensitive substring filter on the
exchange column, first match wins, `none` when absent. -/
def resolve_amended (df : Table) (symbol : String) (exchange : Exchange) :
    Option String :=
  if df.isEmpty then none
  else
    (df.find? fun r =>
      r.symbol == symbol && strHasSubCI r.exchange_id exchange.nameStr).map
      (fun r => r.token)

/-- The subscription set `symbols_to_subscribe` builds from a loaded table:
resolvable symbols become `(segment, security_id)` pairs, unresolvable ones
are silently skipped. -/
def subListOf (df : Table) (syms : List String) : List (String × String) :=
  syms.filterMap fun s =>
    let pr := if strHasSub s ":" then splitFirstColon s else ("NSE", s)
    let exch := (Exchange.ofMember pr.1).getD .NSE
    match lookupIn df pr.2 exch with
    | none => none
    | some sid =>
      if sid == "" then none else some (get_exchange_segment exch pr.2, sid)

/-- `raw` as the amended claim C5 describes it for `cancel_order`: populated
with the broker reply exactly when the network call returned one. -/
def cancelRawSpec (st : DriverState) (env : Env) (order_id : String) :
    Option DhanResp :=
  match st.dhan with
  | false => none
  | true =>
    match env.cancel order_id with
    | .ok r => some r
    | .exn _ => none

/-- Amended C5 for `modify_order`. -/
def modifyRawSpec (M : MappingRegistry) (st : DriverState) (env : Env)
    (order_id : String) (updates : Updates) : Option DhanResp :=
  match st.dhan with
  | false => none
  | true =>
    match env.modify (modifyArgsOf M order_id updates) with
    | .ok r => some r
    | .exn _ => none

/-- Amended C5 for `place_order`: `raw` carries the broker reply exactly
when an order-placement call was dispatched and returned one; every local
failure (unauthenticated, mapping miss, symbol not found, resolver raise)
and every caught transport raise leaves `raw` unset. -/
def placeRawSpec (M : MappingRegistry) (st : DriverState) (env : Env)
    (req : OrderRequest) : Option DhanResp :=
  match (place_order M st env req).calls.filterMap placeArgOf with
  | [a] =>
    match env.place a with
    | .ok r => some r
    | .exn _ => none
  | _ => none

/-! ### Concrete fixtures for scenarios, counterexamples and witnesses -/

/-- Fully-populated dhan mapping tables (the registry itself is not in the
sources; any total table works for the concrete scenarios). -/
def M0 : MappingRegistry where
  order_type := fun o => some (match o with
    | .LIMIT => "LIMIT" | .MARKET => "MARKET"
    | .SL => "STOP_LOSS" | .SLM => "STOP_LOSS_MARKET")
  product_type := fun p => some (match p with
    | .INTRADAY => "INTRA" | .CNC => "CNC" | .MARGIN => "MARGIN")
  transaction_type := fun t => some (match t with | .BUY => "BUY" | .SELL => "SELL")
  validity := fun v => some (match v with | .DAY => "DAY" | .IOC => "IOC")

/-- A one-row master table: RELIANCE on NSE with security id 2885. -/
def T0 : Table := [⟨"RELIANCE", "NSE", "2885"⟩]

/-- Authenticated driver with the master table loaded. -/
def stAuth : DriverState := ⟨true, some T0, false⟩

/-- Driver constructed without credentials. -/
def stUnauth : DriverState := ⟨false, none, false⟩

/-- Authenticated driver before any instrument download. -/
def stNoTable : DriverState := ⟨true, none, false⟩

/-- Authenticated driver with a live feed and the table loaded. -/
def stFeed : DriverState := ⟨true, some T0, true⟩

/-- A successful broker reply. -/
def respOk : DhanResp := ⟨"success", some "112111182198"⟩

/-- A benign environment: every external call succeeds. -/
def env0 : Env where
  fetchMaster := .ok T0
  cacheWrite := .ok ()
  cacheFile := none
  place := fun _ => .ok respOk
  cancel := fun _ => .ok respOk
  modify := fun _ => .ok respOk
  fundLimits := .ok ⟨"success", ⟨100, 20⟩⟩
  positions := .ok ⟨"success", []⟩
  orderList := .ok ⟨"success", []⟩
  tradeBook := .ok ⟨"success", []⟩
  quote := fun _ _ _ => .ok ⟨"success", ⟨2500⟩⟩
  history := fun _ => .ok ⟨"success", []⟩
  creds := true
  feedInit := .ok ()
  subscribeSymbols := fun _ => .ok
  subscribeFallback := fun _ => .ok ()

/-- Environment in which the cache file exists but fails to parse. -/
def envBadCache : Env := { env0 with cacheFile := some (.exn "ParserError: bad cache") }

/-- Environment in which the instrument-master fetch raises. -/
def envFetchFail : Env := { env0 with fetchMaster := .exn "ConnectionError" }

/-- A well-formed limit order request. -/
def reqStd : OrderRequest := ⟨"RELIANCE", .NSE, .BUY, .LIMIT, .INTRADAY, .DAY, 10, 2500, 0⟩

/-- The same request with the invalid quantity 0. -/
def reqQ0 : OrderRequest := ⟨"RELIANCE", .NSE, .BUY, .LIMIT, .INTRADAY, .DAY, 0, 2500, 0⟩

/-- A LIMIT request whose caller-supplied price is negative. -/
def reqNegLimit : OrderRequest := ⟨"RELIANCE", .NSE, .BUY, .LIMIT, .INTRADAY, .DAY, 10, -5, 0⟩

/-- An empty `updates` dict for `modify_order`. -/
def updNone : Updates := ⟨none, none, none, none, none⟩

/-! ## Helper lemmas -/

theorem lookup_token_loaded (sym : String) (exch : Exchange) (st : DriverState)
    (env : Env) (df : Table) (h : st.master = some df) :
    lookup_token sym exch st env = ⟨.ok (lookupIn df sym exch), [], [], st⟩ := by
  unfold lookup_token
  rw [h]

theorem lookup_token_calls_cases (sym : String) (exch : Exchange)
    (st : DriverState) (env : Env) :
    (lookup_token sym exch st env).calls = [] ∨
    (lookup_token sym exch st env).calls = [NetCall.fetchMaster] := by
  obtain ⟨dh, m, fe⟩ := st
  cases m with
  | some df => left; rfl
  | none =>
    unfold lookup_token download_instruments
    cases hf : env.fetchMaster with
    | exn e => right; rfl
    | ok t =>
      cases hw : env.cacheWrite with
      | ok u => right; rfl
      | exn e => right; rfl

theorem lookup_token_no_place (sym : String) (exch : Exchange)
    (st : DriverState) (env : Env) :
    (lookup_token sym exch st env).calls.filterMap placeArgOf = [] := by
  rcases lookup_token_calls_cases sym exch st env with h | h <;> rw [h] <;> rfl

theorem placeOrder_not_mem_lookup (a : PlaceArgs) (sym : String) (exch : Exchange)
    (st : DriverState) (env : Env) :
    NetCall.placeOrder a ∉ (lookup_token sym exch st env).calls := by
  rcases lookup_token_calls_cases sym exch st env with h | h <;> rw [h] <;> simp

theorem lookupIn_eq_resolve_amended (df : Table) (s : String) (e : Exchange) :
    lookupIn df s e = resolve_amended df s e := by
  unfold lookupIn resolve_amended
  by_cases h : df.isEmpty
  · simp [h]
  · simp only [h, Bool.false_eq_true, if_false]
    rw [← List.filter_head? (fun r => r.symbol == s && strHasSubCI r.exchange_id e.nameStr) df]
    cases df.filter (fun r => r.symbol == s && strHasSubCI r.exchange_id e.nameStr) <;> rfl

theorem mkPlaceArgs_quantity (req : OrderRequest) (ot pt tt vd sid : String) :
    (mkPlaceArgs req ot pt tt vd sid).quantity = req.quantity := by
  unfold mkPlaceArgs
  by_cases h : req.price ≤ 0 <;> simp [h]

theorem mkPlaceArgs_price (req : OrderRequest) (ot pt tt vd sid : String) :
    (mkPlaceArgs req ot pt tt vd sid).price =
      if req.order_type = OrderType.LIMIT
      then (if req.price ≤ 0 then 0 else req.price) else 0 := by
  unfold mkPlaceArgs
  by_cases h : req.price ≤ 0 <;> simp [h]

theorem placeOrder_mem_append (a args : PlaceArgs) (sym : String) (exch : Exchange)
    (st : DriverState) (env : Env)
    (h : NetCall.placeOrder a ∈
      (lookup_token sym exch st env).calls ++ [NetCall.placeOrder args]) :
    a = args := by
  rcases List.mem_append.mp h with hm | hm
  · exact absurd hm (placeOrder_not_mem_lookup a sym exch st env)
  · simpa using List.mem_singleton.mp hm

/-! ## Claim C3 -/

/-- C3, counterexample: `download_instruments` is a public driver operation
and performs its network fetch on a driver with no session, so "every public
driver operation ... issues zero network calls" is false. -/
theorem C3_counterexample :
    stUnauth.dhan = false ∧
    (download_instruments stUnauth env0).calls = [NetCall.fetchMaster] :=
  ⟨rfl, rfl⟩

/-- C3, amended: every public operation except the instrument-master
machinery (`download_instruments`, and `get_instruments`/the implicit
resolver refresh, which are not session-gated) short-circuits on an
unauthenticated driver: order operations return `status="error"`,
`message="unauthenticated"`, query operations return zeroed/empty values,
state is untouched, and zero network calls are issued. -/
theorem C3_unauth_short_circuit (M : MappingRegistry) (st : DriverState)
    (env : Env) (req : OrderRequest) (oid : String) (upd : Updates)
    (sym s e : String) (syms : List String)
    (hd : st.dhan = false) (hf : st.feed = false) :
    place_order M st env req =
      ⟨.ok (⟨"error", none, some "unauthenticated", none⟩, req), [], [], st⟩ ∧
    cancel_order st env oid =
      ⟨.ok ⟨"error", some oid, some "unauthenticated", none⟩, [], [], st⟩ ∧
    modify_order M st env oid upd =
      ⟨.ok ⟨"error", some oid, some "unauthenticated", none⟩, [], [], st⟩ ∧
    get_funds st env = ⟨.ok ⟨0, 0, 0, 0, .errDict "unauthenticated"⟩, [], [], st⟩ ∧
    get_positions st env = ⟨.ok [], [], [], st⟩ ∧
    get_orderbook st env = ⟨.ok [], [], [], st⟩ ∧
    get_tradebook st env = ⟨.ok [], [], [], st⟩ ∧
    get_quote st env sym = ⟨.ok ⟨sym, .NSE, 0, .errDict "unauthenticated"⟩, [], [], st⟩ ∧
    get_history st env sym s e = ⟨.ok [], [], [], st⟩ ∧
    place_gtt_oco_order st env sym s =
      ⟨.ok ⟨"error", none, some "unauthenticated", none⟩, [], [], st⟩ ∧
    connect_websocket st env = ⟨.ok (), [], [], st⟩ ∧
    connect_order_websocket st env = ⟨.ok (), [], [], st⟩ ∧
    symbols_to_subscribe st env syms = ⟨.ok (), [], [], st⟩ := by
  refine ⟨?_, ?_, ?_, ?_, ?_, ?_, ?_, ?_, ?_, ?_, ?_, ?_, ?_⟩
  · unfold place_order; rw [hd]; rfl
  · unfold cancel_order; rw [hd]; rfl
  · unfold modify_order; rw [hd]; rfl
  · unfold get_funds; rw [hd]; rfl
  · unfold get_positions; rw [hd]; rfl
  · unfold get_orderbook; rw [hd]; rfl
  · unfold get_tradebook; rw [hd]; rfl
  · unfold get_quote; rw [hd]; rfl
  · unfold get_history; rw [hd]; rfl
  · unfold place_gtt_oco_order; rw [hd]; rfl
  · unfold connect_websocket; rw [hd]; rfl
  · unfold connect_order_websocket connect_websocket; rw [hf, hd]; rfl
  · unfold symbols_to_subscribe; rw [hf]; rfl

/-- C3 witness: the amended short-circuit at a concrete unauthenticated
driver and request. -/
theorem C3_witness :
    place_order M0 stUnauth env0 reqStd =
      ⟨.ok (⟨"error", none, some "unauthenticated", none⟩, reqStd), [], [], stUnauth⟩ :=
  (C3_unauth_short_circuit M0 stUnauth env0 reqStd "1" updNone "NSE:RELIANCE" "a" "b" []
    rfl rfl).1

/-! ## Claim C4 -/

/-- C4, counterexample: `get_instruments` is a public driver operation with
no exception isolation on the cache-load path — a cache file that exists
but fails to parse propagates the library exception to the caller instead
of returning an empty collection. -/
theorem C4_counterexample :
    (get_instruments stNoTable envBadCache).val = Except.error "ParserError: bad cache" :=
  rfl

/-- C4, amended: exceptions ARE isolated at the boundary of `place_order`,
`modify_order`, `cancel_order` (error `OrderResponse`), `get_quote`
(`Quote` with the failure in `raw`), the collection/number queries
(empty/zeroed results), `place_gtt_oco_order`, `connect_websocket` and
`download_instruments` — for every environment behaviour these return
normally; only `get_instruments` (cache parse) and `symbols_to_subscribe`
(resolver raise, or a non-`AttributeError` raise of the subscribe call) can
propagate an exception to the caller. -/
theorem C4_exceptions_isolated (M : MappingRegistry) (st : DriverState)
    (env : Env) (req : OrderRequest) (oid : String) (upd : Updates)
    (sym s e : String) :
    isOkE (place_order M st env req).val = true ∧
    isOkE (cancel_order st env oid).val = true ∧
    isOkE (modify_order M st env oid upd).val = true ∧
    isOkE (get_funds st env).val = true ∧
    isOkE (get_positions st env).val = true ∧
    isOkE (get_orderbook st env).val = true ∧
    isOkE (get_tradebook st env).val = true ∧
    isOkE (get_quote st env sym).val = true ∧
    isOkE (get_history st env sym s e).val = true ∧
    isOkE (place_gtt_oco_order st env sym s).val = true ∧
    isOkE (connect_websocket st env).val = true ∧
    isOkE (download_instruments st env).val = true := by
  refine ⟨?_, ?_, ?_, ?_, ?_, ?_, ?_, ?_, ?_, ?_, ?_, ?_⟩
  · simp only [place_order]
    (repeat' split) <;> rfl
  · simp only [cancel_order]
    (repeat' split) <;> rfl
  · simp only [modify_order]
    (repeat' split) <;> rfl
  · simp only [get_funds]
    (repeat' split) <;> rfl
  · simp only [get_positions]
    (repeat' split) <;> rfl
  · simp only [get_orderbook]
    (repeat' split) <;> rfl
  · simp only [get_tradebook]
    (repeat' split) <;> rfl
  · simp only [get_quote]
    (repeat' split) <;> rfl
  · simp only [get_history]
    (repeat' split) <;> rfl
  · simp only [place_gtt_oco_order]
    (repeat' split) <;> rfl
  · simp only [connect_websocket]
    (repeat' split) <;> rfl
  · simp only [download_instruments]
    (repeat' split) <;> rfl

/-! ## Claim C5 -/

/-- C5, counterexample: on the unauthenticated local failure both
`place_order` and `cancel_order` return an `OrderResponse` whose `raw`
field is NOT populated, so "`raw` is always populated, including on local
(non-network) failures" is false. -/
theorem C5_counterexample :
    rawOfPlace (place_order M0 stUnauth env0 reqStd) = some none ∧
    rawOf (cancel_order stUnauth env0 "91452") = some none :=
  ⟨rfl, rfl⟩

/-- C5, amended: for `place_order`, `cancel_order` and `modify_order`,
`OrderResponse.raw` is populated exactly when the network call returned a
broker reply (success or broker rejection); every local failure —
unauthenticated short-circuit, mapping miss, symbol-not-found, resolver
raise — and every caught transport raise leaves `raw` unset. -/
theorem C5_raw_amended (M : MappingRegistry) (st : DriverState) (env : Env)
    (req : OrderRequest) (oid : String) (upd : Updates) :
    rawOfPlace (place_order M st env req) = some (placeRawSpec M st env req) ∧
    rawOf (cancel_order st env oid) = some (cancelRawSpec st env oid) ∧
    rawOf (modify_order M st env oid upd) = some (modifyRawSpec M st env oid upd) := by
  refine ⟨?_, ?_, ?_⟩
  · cases hd : st.dhan with
    | false => simp [place_order, placeRawSpec, rawOfPlace, hd]
    | true =>
      simp only [place_order, placeRawSpec, rawOfPlace, hd, Bool.not_true,
        Bool.false_eq_true, if_false]
      cases h1 : M.order_type req.order_type with
      | none => simp
      | some ot =>
        cases h2 : M.product_type req.product_type with
        | none => simp
        | some pt =>
          cases h3 : M.transaction_type req.transaction_type with
          | none => simp
          | some tt =>
            cases h4 : M.validity req.validity with
            | none => simp
            | some vd =>
              cases h5 : (lookup_token req.symbol req.exchange st env).val with
              | error e2 => simp [lookup_token_no_place]
              | ok sid? =>
                cases sid? with
                | none => simp [lookup_token_no_place]
                | some sid =>
                  by_cases h6 : sid == ""
                  · simp [h6, lookup_token_no_place]
                  · simp only [h6, Bool.false_eq_true, if_false]
                    cases hp : env.place (mkPlaceArgs req ot pt tt vd sid) with
                    | exn e2 =>
                      simp [hp, List.filterMap_append, lookup_token_no_place, placeArgOf]
                    | ok r =>
                      by_cases hs : r.status = "success" <;>
                        simp [hp, hs, List.filterMap_append, lookup_token_no_place,
                          placeArgOf]
  · cases hd : st.dhan with
    | false => simp [cancel_order, cancelRawSpec, rawOf, hd]
    | true =>
      simp only [cancel_order, cancelRawSpec, rawOf, hd, Bool.not_true,
        Bool.false_eq_true, if_false]
      cases hc : env.cancel oid with
      | exn e2 => simp
      | ok r => by_cases hs : r.status = "success" <;> simp [hs]
  · cases hd : st.dhan with
    | false => simp [modify_order, modifyRawSpec, rawOf, hd]
    | true =>
      simp only [modify_order, modifyRawSpec, rawOf, hd, Bool.not_true,
        Bool.false_eq_true, if_false]
      cases hc : env.modify (modifyArgsOf M oid upd) with
      | exn e2 => simp
      | ok r => by_cases hs : r.status = "success" <;> simp [hs]

/-! ## Claim C6 -/

/-- C6, counterexample: resolution is NOT case-insensitive on the trading
symbol — looking up `"reliance"` against a table holding `"RELIANCE"` (NSE)
returns no instrument, while the case-insensitive match the claim describes
finds security id 2885. -/
theorem C6_counterexample :
    (lookup_token "reliance" Exchange.NSE stAuth env0).val = .ok none ∧
    resolve_claimC6 T0 "reliance" Exchange.NSE = some "2885" := by
  exact ⟨by decide, by decide⟩

/-- C6, amended: resolution is a case-SENSITIVE exact match on the symbol
with a case-insensitive substring filter on the exchange column; with a
table in memory it is pure (no network call) and absence yields `none`, not
an exception; with no table it first triggers the implicit download, and
when that fetch succeeds it resolves against the fetched table. -/
theorem C6_resolution_amended (st : DriverState) (env : Env) (sym : String)
    (exch : Exchange) :
    (∀ df, st.master = some df →
      lookup_token sym exch st env = ⟨.ok (resolve_amended df sym exch), [], [], st⟩) ∧
    (st.master = none →
      (lookup_token sym exch st env).calls = [NetCall.fetchMaster] ∧
      ∀ t, env.fetchMaster = .ok t →
        (lookup_token sym exch st env).val = .ok (resolve_amended t sym exch)) := by
  obtain ⟨dh, m, fe⟩ := st
  constructor
  · intro df h
    replace h : m = some df := h
    subst h
    rw [lookup_token_loaded sym exch ⟨dh, some df, fe⟩ env df rfl,
      lookupIn_eq_resolve_amended]
  · intro h
    replace h : m = none := h
    subst h
    unfold lookup_token download_instruments
    cases hf : env.fetchMaster with
    | exn e =>
      refine ⟨rfl, ?_⟩
      intro t ht
      cases ht
    | ok u =>
      cases hw : env.cacheWrite with
      | ok v =>
        refine ⟨rfl, ?_⟩
        intro t ht
        cases ht
        rw [← lookupIn_eq_resolve_amended]
      | exn e =>
        refine ⟨rfl, ?_⟩
        intro t ht
        cases ht
        rw [← lookupIn_eq_resolve_amended]

/-- C6 witness: amended resolution at a concrete loaded table. -/
theorem C6_witness :
    lookup_token "RELIANCE" Exchange.NSE stAuth env0 =
      ⟨.ok (some "2885"), [], [], stAuth⟩ := by
  have h := (C6_resolution_amended stAuth env0 "RELIANCE" Exchange.NSE).1 T0 rfl
  rw [h]
  decide

/-! ## Claim C7 -/

/-- C7: when the instrument-master fetch raises (network or parse failure),
`download_instruments` leaves the previously loaded in-memory table exactly
as it was, propagates no exception, and only logs; the table is replaced —
with the fetched table — only when the entire fetch succeeded. -/
theorem C7_refresh_preserves_table (st : DriverState) (env : Env) :
    (∀ e, env.fetchMaster = .exn e →
      (download_instruments st env).st.master = st.master ∧
      (download_instruments st env).val = .ok () ∧
      (download_instruments st env).logs =
        ["Error downloading Dhan instruments: " ++ e]) ∧
    (∀ t, env.fetchMaster = .ok t →
      (download_instruments st env).st.master = some t) := by
  constructor
  · intro e he
    unfold download_instruments
    rw [he]
    exact ⟨rfl, rfl, rfl⟩
  · intro t ht
    unfold download_instruments
    rw [ht]
    cases env.cacheWrite <;> rfl

/-- C7 witness: a failing fetch on a driver whose table holds T0 leaves the
table untouched and merely logs. -/
theorem C7_witness :
    (download_instruments stAuth envFetchFail).st.master = stAuth.master ∧
    (download_instruments stAuth envFetchFail).val = .ok () ∧
    (download_instruments stAuth envFetchFail).logs =
      ["Error downloading Dhan instruments: " ++ "ConnectionError"] :=
  (C7_refresh_preserves_table stAuth envFetchFail).1 "ConnectionError" rfl

/-! ## Claim C8 -/

/-- C8, counterexample: subscribing `["NSE:RELIANCE", "NSE:NOTREAL"]` where
`NOTREAL` fails resolution yields exactly one active subscription and no
exception — but ZERO recorded warnings, not the one warning the claim
requires: the unresolvable symbol is dropped silently. -/
theorem C8_counterexample :
    (symbols_to_subscribe stFeed env0 ["NSE:RELIANCE", "NSE:NOTREAL"]).val = .ok () ∧
    (symbols_to_subscribe stFeed env0 ["NSE:RELIANCE", "NSE:NOTREAL"]).calls =
      [NetCall.subscribeSymbols [("NSE_EQ", "2885")]] ∧
    (symbols_to_subscribe stFeed env0 ["NSE:RELIANCE", "NSE:NOTREAL"]).logs = [] := by
  exact ⟨rfl, rfl, rfl⟩

theorem subResolve_loaded (env : Env) (syms : List String) (dh fe : Bool)
    (df : Table) (cs : List NetCall) (ls : List String)
    (acc : List (String × String)) :
    subResolve env syms ⟨dh, some df, fe⟩ cs ls acc =
      ⟨.ok (acc ++ subListOf df syms), cs, ls, ⟨dh, some df, fe⟩⟩ := by
  induction syms generalizing acc with
  | nil => simp [subResolve, subListOf]
  | cons s rest ih =>
    simp only [subResolve, lookup_token]
    cases hl : lookupIn df (if strHasSub s ":" then splitFirstColon s else ("NSE", s)).2
        ((Exchange.ofMember (if strHasSub s ":" then splitFirstColon s else ("NSE", s)).1).getD
          Exchange.NSE) with
    | none =>
      simp [List.append_nil, ih, subListOf, List.filterMap_cons, hl]
    | some sid =>
      by_cases h6 : sid = ""
      · simp [List.append_nil, ih, subListOf, List.filterMap_cons, hl, h6]
      · simp [List.append_nil, ih, subListOf, List.filterMap_cons, hl, h6,
          List.append_assoc]

/-- C8, amended: with a live feed and a loaded instrument table, symbols
that fail resolution are dropped SILENTLY — no warning is recorded — while
all resolvable symbols are subscribed in one call, and no exception is
raised provided the feed subscribe call itself returns normally. -/
theorem C8_subscribe_amended (st : DriverState) (env : Env) (df : Table)
    (syms : List String) (hf : st.feed = true) (hm : st.master = some df)
    (hs : env.subscribeSymbols (subListOf df syms) = SubOutcome.ok) :
    (symbols_to_subscribe st env syms).val = .ok () ∧
    (symbols_to_subscribe st env syms).logs = [] ∧
    (symbols_to_subscribe st env syms).calls =
      (if (subListOf df syms).isEmpty then []
       else [NetCall.subscribeSymbols (subListOf df syms)]) := by
  obtain ⟨dh, m, fe⟩ := st
  replace hf : fe = true := hf
  replace hm : m = some df := hm
  subst hf
  subst hm
  simp only [symbols_to_subscribe, Bool.not_true, Bool.false_eq_true, if_false]
  rw [subResolve_loaded env syms dh true df [] [] []]
  simp only [List.nil_append]
  by_cases he : (subListOf df syms).isEmpty
  · simp [he]
  · simp [he, hs]

/-- C8 witness: the amended drop-silently behaviour at the concrete
two-symbol subscription. -/
theorem C8_witness :
    (symbols_to_subscribe stFeed env0 ["NSE:RELIANCE", "NSE:NOTREAL"]).val = .ok () ∧
    (symbols_to_subscribe stFeed env0 ["NSE:RELIANCE", "NSE:NOTREAL"]).logs = [] ∧
    (symbols_to_subscribe stFeed env0 ["NSE:RELIANCE", "NSE:NOTREAL"]).calls =
      (if (subListOf T0 ["NSE:RELIANCE", "NSE:NOTREAL"]).isEmpty then []
       else [NetCall.subscribeSymbols (subListOf T0 ["NSE:RELIANCE", "NSE:NOTREAL"])]) :=
  C8_subscribe_amended stFeed env0 T0 ["NSE:RELIANCE", "NSE:NOTREAL"] rfl rfl rfl

/-! ## Claim C10 -/

/-- C10: on an authenticated driver whose four enums translate and whose
symbol resolves to a nonempty security id, `place_order` mutates the
caller-owned request in place before dispatch: `request.price` is set to
`0` when it was `≤ 0` and left untouched (the whole request unchanged)
when it was `> 0` — visibly to the caller, whatever the network call then
does. -/
theorem C10_place_order_price_mutation (M : MappingRegistry) (st : DriverState)
    (env : Env) (req : OrderRequest) (ot pt tt vd sid : String)
    (hd : st.dhan = true)
    (h1 : M.order_type req.order_type = some ot)
    (h2 : M.product_type req.product_type = some pt)
    (h3 : M.transaction_type req.transaction_type = some tt)
    (h4 : M.validity req.validity = some vd)
    (h5 : (lookup_token req.symbol req.exchange st env).val = .ok (some sid))
    (h6 : ¬ sid = "") :
    reqOf (place_order M st env req) =
      some (if req.price ≤ 0 then { req with price := 0 } else req) := by
  simp only [place_order, hd, Bool.not_true, Bool.false_eq_true, if_false,
    h1, h2, h3, h4, h5, beq_iff_eq, h6, ite_false]
  cases hp : env.place (mkPlaceArgs req ot pt tt vd sid) with
  | exn e => simp [reqOf]
  | ok r =>
    by_cases hs : r.status = "success" <;> simp [reqOf, hs]

/-- C10 witness: a concrete LIMIT request with price `-5` is visibly
mutated to price `0`. -/
theorem C10_witness :
    reqOf (place_order M0 stAuth env0 reqNegLimit) =
      some (if reqNegLimit.price ≤ 0 then { reqNegLimit with price := 0 }
            else reqNegLimit) :=
  C10_place_order_price_mutation M0 stAuth env0 reqNegLimit
    "LIMIT" "INTRA" "BUY" "DAY" "2885" rfl rfl rfl rfl rfl (by decide) (by decide)

/-! ## Claim C1 -/

/-- C1, counterexample: a request with `quantity = 0` on an authenticated
driver with a resolvable symbol is NOT rejected locally — `place_order`
issues the network call (with quantity 0) and even reports the stubbed
broker success, so "never issues a network call" and "rejects locally" are
both false. -/
theorem C1_counterexample :
    reqQ0.quantity = 0 ∧
    (place_order M0 stAuth env0 reqQ0).calls =
      [NetCall.placeOrder ⟨"2885", "NSE_EQ", "BUY", 0, "LIMIT", "INTRA", 2500, 0, "DAY"⟩] ∧
    (place_order M0 stAuth env0 reqQ0).val =
      .ok (⟨"ok", some "112111182198", none, some respOk⟩, reqQ0) := by
  refine ⟨rfl, by decide, by decide⟩

/-- C1, amended: `place_order` performs no local quantity/price validation
at all.  Whenever the driver is authenticated, the four enums translate and
the symbol resolves, exactly one placement call is dispatched and it
carries the caller's quantity verbatim — including `quantity = 0`;
rejection of invalid quantities is left entirely to the broker. -/
theorem C1_no_quantity_validation (M : MappingRegistry) (st : DriverState)
    (env : Env) (req : OrderRequest) (ot pt tt vd sid : String)
    (hd : st.dhan = true)
    (h1 : M.order_type req.order_type = some ot)
    (h2 : M.product_type req.product_type = some pt)
    (h3 : M.transaction_type req.transaction_type = some tt)
    (h4 : M.validity req.validity = some vd)
    (h5 : (lookup_token req.symbol req.exchange st env).val = .ok (some sid))
    (h6 : ¬ sid = "") :
    ((place_order M st env req).calls.filterMap placeArgOf).map PlaceArgs.quantity =
      [req.quantity] := by
  simp only [place_order, hd, Bool.not_true, Bool.false_eq_true, if_false,
    h1, h2, h3, h4, h5, beq_iff_eq, h6, ite_false]
  cases hp : env.place (mkPlaceArgs req ot pt tt vd sid) with
  | exn e =>
    simp [List.filterMap_append, lookup_token_no_place, placeArgOf, mkPlaceArgs_quantity]
  | ok r =>
    by_cases hs : r.status = "success" <;>
      simp [hs, List.filterMap_append, lookup_token_no_place, placeArgOf,
        mkPlaceArgs_quantity]

/-- C1 witness: the quantity-0 request is dispatched with quantity 0. -/
theorem C1_witness :
    reqQ0.quantity = 0 ∧
    ((place_order M0 stAuth env0 reqQ0).calls.filterMap placeArgOf).map
      PlaceArgs.quantity = [reqQ0.quantity] :=
  ⟨rfl, C1_no_quantity_validation M0 stAuth env0 reqQ0
    "LIMIT" "INTRA" "BUY" "DAY" "2885" rfl rfl rfl rfl rfl (by decide) (by decide)⟩

/-! ## Claim C2 -/

/-- C2, counterexample: a dispatched LIMIT order whose caller-supplied
price is `-5` goes out with price `0`, not with `request.price` — the
price-`≤ 0` normalization also rewrites LIMIT orders, so "the price sent
equals `request.price` exactly when order_type = LIMIT" is false. -/
theorem C2_counterexample :
    reqNegLimit.order_type = OrderType.LIMIT ∧
    reqNegLimit.price = -5 ∧
    (place_order M0 stAuth env0 reqNegLimit).calls =
      [NetCall.placeOrder ⟨"2885", "NSE_EQ", "BUY", 10, "LIMIT", "INTRA", 0, 0, "DAY"⟩] ∧
    ((0 : ℚ) = reqNegLimit.price → False) := by
  refine ⟨rfl, rfl, by decide, by decide⟩

/-- C2, amended: every dispatched placement call carries price
`request.price` when `order_type = LIMIT` AND `request.price > 0`; it
carries `0` when the LIMIT price was `≤ 0` (zeroed by the in-place
normalization), and `0` for every other order type regardless of the
caller's price. -/
theorem C2_dispatched_price (M : MappingRegistry) (st : DriverState)
    (env : Env) (req : OrderRequest) (a : PlaceArgs)
    (h : NetCall.placeOrder a ∈ (place_order M st env req).calls) :
    a.price = if req.order_type = OrderType.LIMIT
      then (if req.price ≤ 0 then 0 else req.price) else 0 := by
  rw [place_order] at h
  cases hd : st.dhan with
  | false => simp [hd] at h
  | true =>
    simp only [hd, Bool.not_true, Bool.false_eq_true, if_false] at h
    cases h1 : M.order_type req.order_type with
    | none => simp [h1] at h
    | some ot =>
      simp only [h1] at h
      cases h2 : M.product_type req.product_type with
      | none => simp [h2] at h
      | some pt =>
        simp only [h2] at h
        cases h3 : M.transaction_type req.transaction_type with
        | none => simp [h3] at h
        | some tt =>
          simp only [h3] at h
          cases h4 : M.validity req.validity with
          | none => simp [h4] at h
          | some vd =>
            simp only [h4] at h
            cases h5 : (lookup_token req.symbol req.exchange st env).val with
            | error e =>
              simp only [h5] at h
              exact absurd h (placeOrder_not_mem_lookup a req.symbol req.exchange st env)
            | ok sid? =>
              cases sid? with
              | none =>
                simp only [h5] at h
                exact absurd h (placeOrder_not_mem_lookup a req.symbol req.exchange st env)
              | some sid =>
                simp only [h5] at h
                by_cases h6 : sid == ""
                · simp only [h6, if_true] at h
                  exact absurd h (placeOrder_not_mem_lookup a req.symbol req.exchange st env)
                · simp only [h6, Bool.false_eq_true, if_false] at h
                  have ha : a = mkPlaceArgs req ot pt tt vd sid := by
                    cases hp : env.place (mkPlaceArgs req ot pt tt vd sid) with
                    | exn e =>
                      simp only [hp] at h
                      exact placeOrder_mem_append a _ req.symbol req.exchange st env h
                    | ok r =>
                      simp only [hp] at h
                      by_cases hs : r.status == "success" <;> simp only [hs] at h <;>
                        [skip; skip] <;>
                        exact placeOrder_mem_append a _ req.symbol req.exchange st env h
                  rw [ha, mkPlaceArgs_price]

/-- C2 witness: the dispatched price of a positive-price LIMIT order equals
the caller's price. -/
theorem C2_witness :
    (⟨"2885", "NSE_EQ", "BUY", 10, "LIMIT", "INTRA", 2500, 0, "DAY"⟩ : PlaceArgs).price =
      if reqStd.order_type = OrderType.LIMIT
      then (if reqStd.price ≤ 0 then 0 else reqStd.price) else 0 :=
  C2_dispatched_price M0 stAuth env0 reqStd
    ⟨"2885", "NSE_EQ", "BUY", 10, "LIMIT", "INTRA", 2500, 0, "DAY"⟩ (by decide)

end Dhan
